import Mathlib

/-!
# ethtester: the GPU dispatch and kernel-validation harness of `src/ethtester/main.cpp`

A shallow embedding of `main.cpp`.  The program is a straight-line driver over the
OpenCL host interface, so the embedding is a *trace semantics*: every function of the
source becomes a Lean function that returns the list of operations it issues (device
calls, file calls, console output) together with the way control leaves it.  Everything
the environment decides (what the platform enumeration returns, whether a call throws,
what `fread` returns, which character `getchar` delivers) is an explicit input.

Conventions.
* `unsigned`, `uint32_t` and `cl_uint` values are naturals reduced modulo `2^32`,
  `size_t` and `unsigned long` values are naturals reduced modulo `2^64` (LP64).
* Text is `String`; all text the program formats is ASCII, so characters are bytes.
* Device calls that stand outside every `try` block in the source (context, queue and
  fixed-size buffer construction, the writes, the dataset kernel calls) are modelled on
  their normal return, except where a field of the environment says otherwise.
-/

namespace Ethtester

/-! ## Machine integers and constants -/

/-- Number of values of a 32-bit unsigned integer (`unsigned`, `uint32_t`, `cl_uint`). -/
def UINT32 : Nat := 4294967296

/-- Number of values of a 64-bit unsigned integer (`size_t`, `uint64_t`, `unsigned long`). -/
def UINT64 : Nat := 18446744073709551616

/-- Modelled from the spec: `sizeof(node)` of libethash (`internal.h` is not under src/);
the spec speaks of 64-byte nodes. -/
def sizeofNode : Nat := 64

/-- Modelled from the spec: `ETHASH_MIX_BYTES` of libethash (`ethash.h` is not under
src/); the spec calls the quotient `datasetSize128`, the size in 128-byte units. -/
def ETHASH_MIX_BYTES : Nat := 128

/-- Error code `CL_PLATFORM_NOT_FOUND_KHR` of the OpenCL headers. -/
def CL_PLATFORM_NOT_FOUND_KHR : Int := -1001

/-- Error code `CL_DEVICE_NOT_FOUND` of the OpenCL headers. -/
def CL_DEVICE_NOT_FOUND : Int := -1

/-- The character `q` as returned by `getchar`. -/
def QUIT : Int := 113

/-! ## Operations and outcomes -/

/-- A compute device, identified by its name. -/
structure Device where
  name : String
  deriving DecidableEq, Repr

/-- A compute platform: what `getDevices(GPU | ACCELERATOR)` answers on it, either a
device list or the code of the `cl::Error` it throws. -/
structure Platform where
  getDevices : Except Int (List Device)

/-- The five device buffers of `main`. -/
inductive Buffer where
  | m_dag
  | m_light
  | m_header
  | m_searchBuffer
  | m_outputBuffer
  deriving DecidableEq, Repr

/-- The two kernels of `main`. -/
inductive Kernel where
  | m_dagKernel
  | m_asmKernel
  deriving DecidableEq, Repr

/-- A kernel argument: a buffer, a 32-bit scalar or a 64-bit scalar. -/
inductive Arg where
  | buffer (b : Buffer)
  | uint (v : Nat)
  | ulong (v : Nat)
  deriving DecidableEq, Repr

/-- One operation issued by the program, in source order. -/
inductive Op where
  | setenv (name value : String)
  | print (text : String)
  | createContext (device : Device)
  | createQueue (device : Device)
  | createBuffer (b : Buffer) (bytes : Nat)
  | enqueueWriteBuffer (b : Buffer) (bytes : Nat)
  | createProgramSource (code : String)
  | createProgramBinary (bytes : Nat)
  | build
  | createKernel (k : Kernel) (name : String)
  | setArg (k : Kernel) (slot : Nat) (a : Arg)
  | enqueueNDRangeKernel (k : Kernel) (globalSize groupSize : Nat)
  | finish
  | enqueueReadBuffer (b : Buffer) (bytes : Nat)
  | calloc (bytes : Nat)
  | fopen (path : String)
  | fread (bytes : Nat)
  | fclose
  | free
  | getchar
  deriving DecidableEq, Repr

/-- How the process ends. -/
inductive Exit where
  /-- Value of `return` in `main`. -/
  | returned (code : Int)
  /-- A `cl::Error` with this code left `main`. -/
  | uncaught (err : Int)
  /-- The source has no defined behaviour (index out of range, division by zero,
  overflow of `buf`). -/
  | undefined
  deriving DecidableEq, Repr

/-- Result of running (a part of) the program: the operations issued and the exit, which
is `none` while the program is still waiting for input the environment has not given. -/
structure Run where
  trace : List Op
  exit : Option Exit
  deriving DecidableEq, Repr

/-- Device work: context and queue creation, buffer creation, buffer transfer, program
creation and build, kernel extraction, argument binding, dispatch, synchronisation. -/
def Op.isDeviceWork : Op → Bool
  | .createContext _ => true
  | .createQueue _ => true
  | .createBuffer _ _ => true
  | .enqueueWriteBuffer _ _ => true
  | .createProgramSource _ => true
  | .createProgramBinary _ => true
  | .build => true
  | .createKernel _ _ => true
  | .setArg _ _ _ => true
  | .enqueueNDRangeKernel _ _ _ => true
  | .finish => true
  | .enqueueReadBuffer _ _ => true
  | _ => false

/-- Dispatches: the `enqueueNDRangeKernel` calls. -/
def Op.isDispatch : Op → Bool
  | .enqueueNDRangeKernel _ _ _ => true
  | _ => false

/-! ## `getPlatforms`, `getDevices`, `addDefinition` -/

/-- `getPlatforms()`: `cl::Platform::get` either fills the vector or throws; the error
`CL_PLATFORM_NOT_FOUND_KHR` is answered with a warning and the empty vector, every other
error is thrown on (the source as compiled with `CL_PLATFORM_NOT_FOUND_KHR` defined, as
the OpenCL extension header does). -/
def getPlatforms (platformGet : Except Int (List Platform)) :
    List Op × Except Int (List Platform) :=
  match platformGet with
  | .ok platforms => ([], .ok platforms)
  | .error err =>
    if err = CL_PLATFORM_NOT_FOUND_KHR then
      ([.print "No OpenCL platforms found"], .ok [])
    else
      ([], .error err)

/-- `getDevices(_platforms, _platformId)`: the platform index is
`min<size_t>(_platformId, _platforms.size() - 1)` in 64-bit arithmetic; indexing an
empty vector is undefined; `CL_DEVICE_NOT_FOUND` gives the empty vector, every other
error is thrown on. -/
def getDevices (_platforms : List Platform) (_platformId : Nat) :
    Except Exit (List Device) :=
  let platform_num := min (_platformId % UINT32) ((_platforms.length + UINT64 - 1) % UINT64)
  match _platforms[platform_num]? with
  | none => .error .undefined
  | some p =>
    match p.getDevices with
    | .ok devices => .ok devices
    | .error err => if err ≠ CL_DEVICE_NOT_FOUND then .error (.uncaught err) else .ok []

/-- The line `sprintf(buf, "#define %s %uu\n", _id, _value)` writes. -/
def definitionLine (_id : String) (_value : Nat) : String :=
  "#define " ++ _id ++ " " ++ Nat.repr (_value % UINT32) ++ "u\n"

/-- `addDefinition(_source, _id, _value)`: format the line into `char buf[256]` and
insert it at `_source.begin()`.  The line and its terminating zero must fit `buf`;
otherwise `sprintf` overruns the array and the result is `none`. -/
def addDefinition (_source : String) (_id : String) (_value : Nat) : Option String :=
  let buf := definitionLine _id _value
  if buf.length < 256 then some (buf ++ _source) else none

/-- Successive `addDefinition` calls on the same string, one per constant, in the order
the constants are supplied. -/
def addDefinitions (_source : String) : List (String × Nat) → Option String
  | [] => some _source
  | (_id, _value) :: rest =>
    match addDefinition _source _id _value with
    | none => none
    | some code => addDefinitions code rest

/-- The definition lines of a list of constants, concatenated, first constant first:
the `definitions` of the constant-injection property of the specification. -/
def definitions : List (String × Nat) → String
  | [] => ""
  | (_id, _value) :: rest => definitionLine _id _value ++ definitions rest

/-! ## Sizes -/

/-- Line 150: `uint32_t dagSize128 = (unsigned)(dagSize / ETHASH_MIX_BYTES)`. -/
def dagSize128 (dagSize : Nat) : Nat := (dagSize / ETHASH_MIX_BYTES) % UINT32

/-- Line 151: `uint32_t lightSize64 = (unsigned)(light->data().size() / sizeof(node))`. -/
def lightSize64 (lightSize : Nat) : Nat := (lightSize / sizeofNode) % UINT32

/-- Lines 155-160: the kernel source after the five `addDefinition` calls. -/
def kernelCode (CLMiner_kernel : String) (dagSize lightSize ETHASH_ACCESSES : Nat) :
    Option String := do
  let code := CLMiner_kernel
  let code ← addDefinition code "GROUP_SIZE" 64
  let code ← addDefinition code "DAG_SIZE" (dagSize128 dagSize)
  let code ← addDefinition code "LIGHT_SIZE" (lightSize64 lightSize)
  let code ← addDefinition code "ACCESSES" ETHASH_ACCESSES
  let code ← addDefinition code "MAX_OUTPUTS" 1
  pure code

/-- Line 134: `min<unsigned>(deviceId, devices.size() - 1)`, both arguments converted to
32-bit `unsigned`; `size` is `devices.size()`. -/
def deviceIndex (deviceId size : Nat) : Nat :=
  min (deviceId % UINT32) (((size + UINT64 - 1) % UINT64) % UINT32)

/-- Line 134: the device selected from the list. -/
def selectDevice (devices : List Device) (deviceId : Nat) : Option Device :=
  devices[deviceIndex deviceId devices.length]?

/-! ## Dataset generation (lines 224-242) -/

/-- Line 224. -/
def m_workgroupSize : Nat := 64

/-- Line 225: `8192 * m_workgroupSize` in `unsigned`. -/
def m_globalWorkSize : Nat := (8192 * m_workgroupSize) % UINT32

/-- Line 227: `uint32_t const work = (uint32_t)(dagSize / sizeof(node))`. -/
def work (dagSize : Nat) : Nat := (dagSize / sizeofNode) % UINT32

/-- Lines 228-230: the final value of `fullRuns` for a workload `work`. -/
def fullRuns (work : Nat) : Nat :=
  let fullRuns := (work / m_globalWorkSize) % UINT32
  let restWork := work % m_globalWorkSize
  if restWork > 0 then (fullRuns + 1) % UINT32 else fullRuns

/-- Lines 238-241: the body of the generation loop at counter `i`. -/
def dagBatch (i : Nat) : List Op :=
  [ .setArg .m_dagKernel 0 (.uint ((i * m_globalWorkSize) % UINT32)),
    .enqueueNDRangeKernel .m_dagKernel m_globalWorkSize m_workgroupSize,
    .finish,
    .print "DAG%" ]

/-- Lines 227-242: the three shared arguments, then the loop
`for (uint32_t i = 0; i < fullRuns; i++)`. -/
def generateDag (dagSize : Nat) : List Op :=
  [ .setArg .m_dagKernel 1 (.buffer .m_light),
    .setArg .m_dagKernel 2 (.buffer .m_dag),
    .setArg .m_dagKernel 3 (.uint (UINT32 - 1)) ]
  ++ (List.range (fullRuns (work dagSize))).flatMap dagBatch

/-- The offset an operation binds at argument 0 of the dataset kernel, if it does. -/
def Op.dagOffset : Op → Option Nat
  | .setArg .m_dagKernel 0 (.uint v) => some v
  | _ => none

/-- Offsets bound at argument 0 of the dataset kernel, in the order they are bound. -/
def dagOffsets (trace : List Op) : List Nat :=
  trace.filterMap Op.dagOffset

/-- Offset ranges `[start, stop)` of the dataset kernel dispatches in a trace: the value
bound at argument 0 when the dispatch is enqueued, and that value plus the enqueued
total size.  `start` is the offset currently bound (0 before any binding). -/
def dagRanges (start : Nat) : List Op → List (Nat × Nat)
  | [] => []
  | .setArg .m_dagKernel 0 (.uint v) :: rest => dagRanges v rest
  | .enqueueNDRangeKernel .m_dagKernel g _ :: rest => (start, start + g) :: dagRanges start rest
  | _ :: rest => dagRanges start rest

/-! ## The test loop (lines 246-350) -/

/-- What the environment answers during one iteration of the test loop. -/
structure Cycle where
  /-- Whether `fopen("test.bin", "rb")` returns a non-null stream. -/
  fopen : Bool
  /-- Value of `ftell` at the end of the file, stored in `kernel_size`. -/
  ftell : Nat
  /-- Value of `fread`, stored in `bytes`. -/
  fread : Nat
  /-- Code of the error thrown by the constructor of the binary program (line 281, outside
  the `try`), if it throws. -/
  programCtor : Option Int
  /-- Whether `program.build` throws `cl::Error`. -/
  buildThrows : Bool
  /-- Whether the call number `k` of the BIND block throws `cl::Error`: call 0 is the
  extraction of `keccak_search`, calls 1 to 8 are the `setArg` calls in source order. -/
  bindThrows : Nat → Bool
  /-- Whether `enqueueNDRangeKernel` throws `cl::Error`. -/
  enqueueThrows : Bool
  /-- Whether `finish` throws `cl::Error`. -/
  finishThrows : Bool
  /-- Whether `enqueueReadBuffer` throws `cl::Error`. -/
  readThrows : Bool
  /-- Value of `getchar()` in the loop condition. -/
  getchar : Int

/-- How control leaves the body of the test loop. -/
inductive CycleEnd where
  /-- The loop condition `getchar() != 'q'` is evaluated next: by `continue` or by
  reaching the end of the body. -/
  | awaitContinue
  /-- The process ends inside the body. -/
  | stop (e : Exit)
  deriving DecidableEq, Repr

/-- Issue the calls of a `try` block in order until one throws: the trace up to and
including the throwing call, and whether one threw.  `k` numbers the first call. -/
def issue (throws : Nat → Bool) : Nat → List Op → List Op × Bool
  | _, [] => ([], false)
  | k, op :: rest =>
    if throws k then ([op], true)
    else ((op :: (issue throws (k + 1) rest).1), (issue throws (k + 1) rest).2)

/-- Line 308: `cl_uint factor = (1UL << 32) / dagSize128`, a 64-bit quotient stored in
32 bits; division by zero is undefined. -/
def factor (dagSize128 : Nat) : Option Nat :=
  if dagSize128 = 0 then none else some ((((1 <<< 32) % UINT64) / dagSize128) % UINT32)

/-- Lines 300-303: kernel extraction and the three buffer arguments. -/
def bindBuffers : List Op :=
  [ .createKernel .m_asmKernel "keccak_search",
    .setArg .m_asmKernel 0 (.buffer .m_outputBuffer),
    .setArg .m_asmKernel 1 (.buffer .m_header),
    .setArg .m_asmKernel 2 (.buffer .m_dag) ]

/-- Lines 305-313: the five scalar arguments. -/
def bindScalars (dagSize128 factor : Nat) : List Op :=
  [ .setArg .m_asmKernel 3 (.ulong 0x133700001338000),
    .setArg .m_asmKernel 4 (.ulong 0x80000000090000),
    .setArg .m_asmKernel 5 (.uint 666),
    .setArg .m_asmKernel 6 (.uint dagSize128),
    .setArg .m_asmKernel 7 (.uint factor) ]

/-- Lines 343-348: the grid of sixteen rows of eight output words. -/
def report : List Op :=
  (List.range 16).flatMap fun _ => List.replicate 8 (Op.print "%08X-") ++ [Op.print "\n"]

/-- Lines 321-348: DISPATCH, READBACK and REPORT, entered after the BIND block whether
or not it threw. -/
def dispatchAndRead (c : Cycle) : List Op × CycleEnd :=
  let t := [Op.print "Successful load, running...\n",
            Op.enqueueNDRangeKernel .m_asmKernel 128 64]
  if c.enqueueThrows then (t ++ [.print "%s(%d)"], .awaitContinue) else
  let t := t ++ [Op.finish]
  if c.finishThrows then (t ++ [.print "%s(%d)"], .awaitContinue) else
  let t := t ++ [Op.print "Successful run, reading...\n",
                 Op.enqueueReadBuffer .m_outputBuffer (128 * 4)]
  if c.readThrows then (t ++ [.print "%s(%d)"], .awaitContinue) else
  (t ++ report, .awaitContinue)

/-- Lines 297-319: the BIND block.  A `cl::Error` thrown by any of its calls is caught,
a message is printed, and control leaves the `catch` at its closing brace. -/
def bind (dagSize128 : Nat) (c : Cycle) : List Op × Option Exit :=
  let t := [Op.print "Setting up params for run...\n"]
  let r := issue c.bindThrows 0 bindBuffers
  if r.2 then (t ++ r.1 ++ [.print "Failed to load and set args for kernel...\n"], none) else
  match factor dagSize128 with
  | none => (t ++ r.1, some .undefined)
  | some f =>
    let s := issue c.bindThrows 4 (bindScalars dagSize128 f)
    if s.2 then
      (t ++ r.1 ++ s.1 ++ [.print "Failed to load and set args for kernel...\n"], none)
    else (t ++ r.1 ++ s.1, none)

/-- Lines 247-348: one execution of the body of the `do ... while` loop. -/
def testCycle (dagSize128 : Nat) (c : Cycle) : List Op × CycleEnd :=
  let t := [Op.print "Testing n\x27 testing kernel...", Op.fopen "test.bin"]
  if !c.fopen then
    (t ++ [.print "Couldn\x27t load binary kernel... le epic dying xD\n"], .awaitContinue)
  else
  let t := t ++ [Op.calloc c.ftell, Op.fread c.ftell, Op.fclose]
  if c.fread ≠ c.ftell then
    (t ++ [.print "Couldn\x27t read entire file (%zu, %zu)\n", .free], .awaitContinue)
  else
  let t := t ++ [Op.print "Kernel size: %zu\n", Op.print "Loading binary kernel test.bin\n",
                 Op.createProgramBinary c.ftell]
  match c.programCtor with
  | some err => (t, .stop (.uncaught err))
  | none =>
  let t := t ++ [Op.build, Op.print "Build info:"]
  if c.buildThrows then (t ++ [.free], .awaitContinue) else
  let t := t ++ [Op.free]
  match bind dagSize128 c with
  | (b, some e) => (t ++ b, .stop e)
  | (b, none) => (t ++ b ++ (dispatchAndRead c).1, (dispatchAndRead c).2)

/-- Lines 246-352: the `do ... while (getchar() != 'q')` loop followed by
`free(output_string); return 0;`.  Each iteration consumes one `Cycle`; when the given
cycles are used up the loop is still running. -/
def testLoop (dagSize128 : Nat) : List Cycle → Run
  | [] => ⟨[], none⟩
  | c :: cs =>
    match testCycle dagSize128 c with
    | (t, .stop e) => ⟨t, some e⟩
    | (t, .awaitContinue) =>
      if c.getchar ≠ QUIT then
        ⟨t ++ [.getchar] ++ (testLoop dagSize128 cs).trace, (testLoop dagSize128 cs).exit⟩
      else
        ⟨t ++ [.getchar, .free], some (.returned 0)⟩

/-- A cycle in which everything succeeds and the user types `c`. -/
def goodCycle : Cycle :=
  { fopen := true, ftell := 4096, fread := 4096, programCtor := none, buildThrows := false,
    bindThrows := fun _ => false, enqueueThrows := false, finishThrows := false,
    readThrows := false, getchar := 99 }

/-- A cycle in which `test.bin` is missing. -/
def missingFileCycle : Cycle := { goodCycle with fopen := false }

/-- A cycle in which `fread` delivers 1000 of the 4096 bytes `ftell` reported. -/
def truncatedCycle : Cycle := { goodCycle with fread := 1000 }

/-- A cycle in which the binary has no entry point `keccak_search`: call 0 of the BIND
block throws. -/
def bindFailCycle : Cycle := { goodCycle with bindThrows := fun k => k == 0 }

/-- A cycle in which the last `setArg` of the BIND block (slot 7) throws. -/
def lastArgFailCycle : Cycle := { goodCycle with bindThrows := fun k => k == 8 }

/-! ## `main` -/

/-- Everything `main` takes from its environment. -/
structure Env where
  /-- Result of `cl::Platform::get`: the platforms, or the code of the error thrown. -/
  platformGet : Except Int (List Platform)
  /-- The kernel source template `CLMiner_kernel` (`CLMiner_kernel.h` is generated). -/
  CLMiner_kernel : String
  /-- The libethash constant `ETHASH_ACCESSES`. -/
  ETHASH_ACCESSES : Nat
  /-- Value of `ethash_get_datasize(block_number)`, a `uint64_t`. -/
  dagSize : Nat
  /-- Value of `light->data().size()`. -/
  lightSize : Nat
  /-- Whether the construction of `m_light` throws. -/
  lightAllocThrows : Bool
  /-- Whether the construction of `m_dag` throws. -/
  dagAllocThrows : Bool
  /-- Whether the build of the dataset kernel source throws `cl::Error`. -/
  buildThrows : Bool
  /-- Answers of the environment in the successive iterations of the test loop. -/
  cycles : List Cycle

/-- Line 112: `unsigned deviceId = 0`. -/
def deviceId : Nat := 0

/-- Lines 143-352: everything after the device is selected. -/
def run (env : Env) (device : Device) : Run :=
  let t := [Op.print "Device:   ", Op.createContext device, Op.createQueue device,
            Op.print "Setting epoch: %d\n",
            Op.print "generating dag for block block_number %ld \n",
            Op.print "Dagsize is: %ld MB \n"]
  match kernelCode env.CLMiner_kernel env.dagSize env.lightSize env.ETHASH_ACCESSES with
  | none => ⟨t, some .undefined⟩
  | some code =>
  let t := t ++ [Op.createBuffer .m_header 32,
                 Op.createBuffer .m_searchBuffer (64 * 4),
                 Op.createBuffer .m_outputBuffer (1024 * 4),
                 Op.print "Creating light cache buffer, size: ",
                 Op.createBuffer .m_light env.lightSize]
  if env.lightAllocThrows then
    ⟨t ++ [.print "Couldn\x27t alloc light data? \n"], some (.returned (-1))⟩
  else
  let t := t ++ [Op.print "Creating DAG buffer, size: ", Op.createBuffer .m_dag env.dagSize]
  if env.dagAllocThrows then
    ⟨t ++ [.print "Couldn\x27t alloc dag data?\n"], some (.returned (-1))⟩
  else
  let t := t ++ List.replicate 16 (Op.print "0x%08X\n")
    ++ [Op.enqueueWriteBuffer .m_header 32,
        Op.enqueueWriteBuffer .m_light env.lightSize,
        Op.print "Wrote light data, loading kernel...\n",
        Op.createProgramSource code,
        Op.build]
  if env.buildThrows then ⟨t ++ [.print "Build error:"], some (.returned (-1))⟩ else
  let t := t ++ [Op.print "Build info:",
                 Op.createKernel .m_dagKernel "ethash_calculate_dag_item",
                 Op.print "got kernel, generating dag...\n"]
    ++ generateDag env.dagSize
  let r := testLoop (dagSize128 env.dagSize) env.cycles
  ⟨t ++ r.trace, r.exit⟩

/-- Lines 85-134 and on: `main`. -/
def main (env : Env) : Run :=
  let t := [Op.setenv "GPU_MAX_HEAP_SIZE" "100",
            Op.setenv "GPU_MAX_ALLOC_PERCENT" "100",
            Op.setenv "GPU_SINGLE_ALLOC_PERCENT" "100",
            Op.calloc (128 * 4),
            Op.print "Doing OpenCL init..\n"]
  match getPlatforms env.platformGet with
  | (w, .error err) => ⟨t ++ w, some (.uncaught err)⟩
  | (w, .ok platforms) =>
  if platforms.isEmpty then ⟨t ++ w, some (.returned (-1))⟩ else
  let t := t ++ w ++ [Op.print "We have a total of %ld platforms...\n"]
  match getDevices platforms 0 with
  | .error e => ⟨t, some e⟩
  | .ok devices =>
  if devices.isEmpty then
    ⟨t ++ [.print "No OpenCL devices found."], some (.returned (-1))⟩
  else
  let t := t ++ [Op.print "We have a total of %ld devices, using device %ld...\n"]
  match selectDevice devices deviceId with
  | none => ⟨t, some .undefined⟩
  | some device => ⟨t ++ (run env device).trace, (run env device).exit⟩

/-! ## Arithmetic of the generation loop -/

theorem m_globalWorkSize_eq : m_globalWorkSize = 524288 := by decide

theorem work_lt (dagSize : Nat) : work dagSize < UINT32 :=
  Nat.mod_lt _ (by decide)

theorem work_mul (W : Nat) (h : W < UINT32) : work (sizeofNode * W) = W := by
  unfold work
  rw [Nat.mul_div_cancel_left W (by decide : 0 < sizeofNode), Nat.mod_eq_of_lt h]

theorem fullRuns_eq (W : Nat) (h : W < UINT32) :
    fullRuns W = W / 524288 + (if W % 524288 > 0 then 1 else 0) := by
  have h32 : UINT32 = 4294967296 := rfl
  rw [h32] at h
  unfold fullRuns
  simp only [m_globalWorkSize_eq, h32]
  split <;> omega

theorem fullRuns_mul_bounds (W : Nat) (h : W < UINT32) :
    W ≤ fullRuns W * 524288 ∧ fullRuns W * 524288 < W + 524288 := by
  rw [fullRuns_eq W h]
  split <;> omega

theorem offset_lt_work (W i : Nat) (h : W < UINT32) (hi : i < fullRuns W) :
    i * 524288 < W := by
  rw [fullRuns_eq W h] at hi
  split at hi <;> omega

theorem ceil_div_eq (W G : Nat) (hG : 0 < G) :
    ⌈(W : ℚ) / (G : ℚ)⌉₊ = W / G + (if W % G > 0 then 1 else 0) := by
  have hGq : (0 : ℚ) < (G : ℚ) := by exact_mod_cast hG
  have hdm : G * (W / G) + W % G = W := Nat.div_add_mod W G
  have hlt : W % G < G := Nat.mod_lt W hG
  generalize hq : W / G = q at hdm ⊢
  generalize hr : W % G = r at hdm hlt ⊢
  split
  · rename_i hpos
    rw [Nat.ceil_eq_iff (Nat.succ_ne_zero q), Nat.succ_sub_one]
    constructor
    · rw [lt_div_iff₀ hGq]
      have : q * G < W := by nlinarith
      exact_mod_cast this
    · rw [div_le_iff₀ hGq]
      have : W ≤ (q + 1) * G := by nlinarith
      rw [Nat.succ_eq_add_one]
      exact_mod_cast this
  · rename_i hpos
    have h0 : r = 0 := by omega
    have hW : W = q * G := by subst h0; rw [← hdm]; ring
    have : (W : ℚ) / (G : ℚ) = (q : ℚ) := by
      rw [div_eq_iff (ne_of_gt hGq)]
      exact_mod_cast hW
    rw [this, Nat.ceil_natCast, Nat.add_zero]

theorem dispatch_count_batches (l : List Nat) :
    ((l.flatMap dagBatch).filter Op.isDispatch).length = l.length := by
  induction l with
  | nil => rfl
  | cons i l ih =>
    simp only [List.flatMap_cons, List.filter_append, List.length_append, ih, List.length_cons]
    simp [dagBatch, Op.isDispatch, List.filter]
    omega

theorem dagOffsets_batches (l : List Nat) :
    dagOffsets (l.flatMap dagBatch) = l.map fun i => (i * m_globalWorkSize) % UINT32 := by
  induction l with
  | nil => rfl
  | cons i l ih =>
    unfold dagOffsets at ih ⊢
    simp only [List.flatMap_cons, List.filterMap_append, ih, List.map_cons]
    simp [dagBatch, Op.dagOffset]

theorem dagRanges_batch (i s : Nat) (rest : List Op) :
    dagRanges s (dagBatch i ++ rest) =
      ((i * m_globalWorkSize) % UINT32, (i * m_globalWorkSize) % UINT32 + m_globalWorkSize)
        :: dagRanges ((i * m_globalWorkSize) % UINT32) rest := by
  simp [dagBatch, dagRanges]

theorem dagRanges_batches (l : List Nat) (s : Nat) :
    dagRanges s (l.flatMap dagBatch) =
      l.map fun i => ((i * m_globalWorkSize) % UINT32,
        (i * m_globalWorkSize) % UINT32 + m_globalWorkSize) := by
  induction l generalizing s with
  | nil => rfl
  | cons i l ih => rw [List.flatMap_cons, dagRanges_batch, ih, List.map_cons]

/-! ## The generation loop: dispatch count, offsets, ranges -/

theorem generateDag_dispatches (dagSize : Nat) :
    ((generateDag dagSize).filter Op.isDispatch).length = fullRuns (work dagSize) := by
  unfold generateDag
  rw [List.filter_append, List.length_append, dispatch_count_batches, List.length_range]
  simp [Op.isDispatch, List.filter]

theorem batch_offset_eq (W i : Nat) (h : W < UINT32) (hi : i < fullRuns W) :
    (i * m_globalWorkSize) % UINT32 = i * 524288 := by
  have := offset_lt_work W i h hi
  rw [m_globalWorkSize_eq]
  exact Nat.mod_eq_of_lt (lt_trans this h)

theorem generateDag_offsets (dagSize : Nat) :
    dagOffsets (generateDag dagSize) =
      (List.range (fullRuns (work dagSize))).map fun i => i * 524288 := by
  have hpre : dagOffsets (generateDag dagSize) =
      dagOffsets ((List.range (fullRuns (work dagSize))).flatMap dagBatch) := by
    simp [generateDag, dagOffsets, Op.dagOffset]
  rw [hpre, dagOffsets_batches]
  apply List.map_congr_left
  intro i hi
  exact batch_offset_eq (work dagSize) i (work_lt dagSize) (List.mem_range.mp hi)

theorem generateDag_ranges (dagSize : Nat) :
    dagRanges 0 (generateDag dagSize) =
      (List.range (fullRuns (work dagSize))).map fun i => (i * 524288, i * 524288 + 524288) := by
  have hpre : dagRanges 0 (generateDag dagSize) =
      dagRanges 0 ((List.range (fullRuns (work dagSize))).flatMap dagBatch) := by
    simp [generateDag, dagRanges]
  rw [hpre, dagRanges_batches]
  apply List.map_congr_left
  intro i hi
  rw [batch_offset_eq (work dagSize) i (work_lt dagSize) (List.mem_range.mp hi),
    m_globalWorkSize_eq]

/-- C1: the dataset-generation loop issues exactly `ceil(W / G)` dispatches, where
`W = work dagSize` is the 32-bit workload total and `G = m_globalWorkSize = 8192 * 64`;
that number is the final value of `fullRuns`, namely `W / G` plus one when `W % G > 0`.
Every `W < 2^32` is the workload of a dataset size (`64 * W`).
With `W = 1000000` (a dataset of 64000000 bytes) the loop issues 2 dispatches, with
offsets 0 and 524288. -/
theorem generateDag_dispatch_count_ceil (dagSize : Nat) :
    ((generateDag dagSize).filter Op.isDispatch).length
        = ⌈(work dagSize : ℚ) / (m_globalWorkSize : ℚ)⌉₊
      ∧ fullRuns (work dagSize)
        = work dagSize / m_globalWorkSize
          + (if work dagSize % m_globalWorkSize > 0 then 1 else 0)
      ∧ ((generateDag dagSize).filter Op.isDispatch).length = fullRuns (work dagSize)
      ∧ (∀ W, W < UINT32 → work (sizeofNode * W) = W)
      ∧ 0 < m_globalWorkSize
      ∧ work 64000000 = 1000000
      ∧ m_globalWorkSize = 524288
      ∧ ((generateDag 64000000).filter Op.isDispatch).length = 2
      ∧ dagOffsets (generateDag 64000000) = [0, 524288] := by
  have hf := fullRuns_eq (work dagSize) (work_lt dagSize)
  refine ⟨?_, ?_, generateDag_dispatches dagSize, work_mul, by decide, by decide, by decide,
    by decide, by decide⟩
  · rw [generateDag_dispatches, ceil_div_eq _ _ (by decide : 0 < m_globalWorkSize), hf,
      m_globalWorkSize_eq]
  · rw [hf, m_globalWorkSize_eq]

/-- C2 (as stated, refuted): for the workload `W = 1000000` the offset ranges of the two
dispatches are `[0, 524288)` and `[524288, 1048576)`; the unit 1000000 lies in the second
range and not in `[0, W)`, so the union of the ranges is not `[0, W)`. -/
theorem dag_ranges_exceed_workload :
    ¬ (∀ x : Nat, (∃ r ∈ dagRanges 0 (generateDag 64000000), r.1 ≤ x ∧ x < r.2)
        ↔ x < work 64000000) := by
  intro h
  have h1 := (h 1000000).mp ⟨(524288, 1048576), by decide, by decide, by decide⟩
  revert h1
  decide

/-- C2 (amended): the offset ranges the generation loop issues are
`[i * G, i * G + G)` for `i = 0 .. fullRuns - 1`; each range starts where the previous
one ends, the ranges are pairwise disjoint, and their union is exactly
`[0, fullRuns * G)`.  That interval contains `[0, W)`, overshoots `W` by less than `G`,
and equals `[0, W)` exactly when `G` divides `W`. -/
theorem dag_ranges_cover_rounded_workload (dagSize : Nat) :
    dagRanges 0 (generateDag dagSize)
        = (List.range (fullRuns (work dagSize))).map
            (fun i => (i * m_globalWorkSize, i * m_globalWorkSize + m_globalWorkSize))
      ∧ (∀ x : Nat, (∃ r ∈ dagRanges 0 (generateDag dagSize), r.1 ≤ x ∧ x < r.2)
          ↔ x < fullRuns (work dagSize) * m_globalWorkSize)
      ∧ (dagRanges 0 (generateDag dagSize)).Pairwise (fun r s => r.2 ≤ s.1)
      ∧ work dagSize ≤ fullRuns (work dagSize) * m_globalWorkSize
      ∧ fullRuns (work dagSize) * m_globalWorkSize < work dagSize + m_globalWorkSize
      ∧ (fullRuns (work dagSize) * m_globalWorkSize = work dagSize
          ↔ work dagSize % m_globalWorkSize = 0) := by
  have hr := generateDag_ranges dagSize
  have hb := fullRuns_mul_bounds (work dagSize) (work_lt dagSize)
  have hf := fullRuns_eq (work dagSize) (work_lt dagSize)
  rw [m_globalWorkSize_eq]
  refine ⟨hr, ?_, ?_, hb.1, hb.2, ?_⟩
  · intro x
    rw [hr]
    constructor
    · rintro ⟨r, hmem, h1, h2⟩
      obtain ⟨i, hi, rfl⟩ := List.mem_map.mp hmem
      have hi := List.mem_range.mp hi
      simp only at h1 h2
      have : (i + 1) * 524288 ≤ fullRuns (work dagSize) * 524288 :=
        Nat.mul_le_mul_right _ hi
      omega
    · intro hx
      refine ⟨(x / 524288 * 524288, x / 524288 * 524288 + 524288),
        List.mem_map.mpr ⟨x / 524288, List.mem_range.mpr ?_, rfl⟩, ?_, ?_⟩
      · exact Nat.div_lt_of_lt_mul (by rw [Nat.mul_comm]; exact hx)
      · simp only; omega
      · simp only; omega
  · rw [hr, List.pairwise_map]
    refine List.Pairwise.imp ?_ (List.pairwise_lt_range _)
    intro i j hij
    simp only
    omega
  · rw [hf]
    split <;> omega

/-- C10: the 32-bit arithmetic of the generation loop never wraps.  For the 32-bit
workload `W = work dagSize` (every `W < 2^32` is one) and `G = 524288`, the value `W / G + (1 if W % G > 0)` is
below `2^32` and is the final `fullRuns`; for every `i < fullRuns` the product `i * G`
is below `2^32`, so the bound offset `(i * G) mod 2^32` is `i * G`, and it is below `W`;
the offsets bound at argument 0 are exactly these products, strictly increasing (hence
distinct).  The product `fullRuns * G` itself can be `2^32` (at `W = 2^32 - 1`). -/
theorem generateDag_offsets_never_wrap (dagSize : Nat) :
    work dagSize < UINT32
      ∧ (∀ W, W < UINT32 → work (sizeofNode * W) = W)
      ∧ work dagSize / 524288 + (if work dagSize % 524288 > 0 then 1 else 0) < UINT32
      ∧ fullRuns (work dagSize)
          = work dagSize / 524288 + (if work dagSize % 524288 > 0 then 1 else 0)
      ∧ (∀ i, i < fullRuns (work dagSize) →
          (i * m_globalWorkSize) % UINT32 = i * m_globalWorkSize
            ∧ i * m_globalWorkSize < work dagSize)
      ∧ dagOffsets (generateDag dagSize)
          = (List.range (fullRuns (work dagSize))).map (fun i => i * m_globalWorkSize)
      ∧ (dagOffsets (generateDag dagSize)).Pairwise (fun a b => a < b)
      ∧ (∀ o ∈ dagOffsets (generateDag dagSize), o < work dagSize)
      ∧ fullRuns (work (sizeofNode * 4294967295)) * m_globalWorkSize = UINT32 := by
  have hW := work_lt dagSize
  have hf := fullRuns_eq (work dagSize) hW
  have ho := generateDag_offsets dagSize
  have h32 : UINT32 = 4294967296 := rfl
  rw [m_globalWorkSize_eq]
  refine ⟨hW, work_mul, ?_, hf, ?_, ho, ?_, ?_, by decide⟩
  · rw [h32] at hW ⊢
    split <;> omega
  · intro i hi
    have h1 := batch_offset_eq (work dagSize) i hW hi
    rw [m_globalWorkSize_eq] at h1
    exact ⟨h1, offset_lt_work (work dagSize) i hW hi⟩
  · rw [ho, List.pairwise_map]
    refine List.Pairwise.imp ?_ (List.pairwise_lt_range _)
    intro i j hij
    omega
  · intro o hmem
    rw [ho] at hmem
    obtain ⟨i, hi, rfl⟩ := List.mem_map.mp hmem
    exact offset_lt_work (work dagSize) i hW (List.mem_range.mp hi)

/-! ## Constant injection -/

theorem repr_uint32_length (v : Nat) : (Nat.repr (v % UINT32)).length ≤ 10 :=
  Nat.repr_length _ 10 (by decide)
    (lt_of_lt_of_le (Nat.mod_lt v (by decide)) (by decide))

theorem definitionLine_length (_id : String) (_value : Nat) :
    (definitionLine _id _value).length ≤ _id.length + 21 := by
  have h := repr_uint32_length _value
  have h1 : ("#define ").length = 8 := by decide
  have h2 : (" ").length = 1 := by decide
  have h3 : ("u\n").length = 2 := by decide
  unfold definitionLine
  simp only [String.length_append, h1, h2, h3]
  omega

theorem addDefinition_of_fits (_source _id : String) (_value : Nat)
    (h : (definitionLine _id _value).length < 256) :
    addDefinition _source _id _value = some (definitionLine _id _value ++ _source) := by
  simp [addDefinition, h]

theorem addDefinition_short (_source _id : String) (_value : Nat) (h : _id.length ≤ 234) :
    addDefinition _source _id _value = some (definitionLine _id _value ++ _source) :=
  addDefinition_of_fits _ _ _ (by have := definitionLine_length _id _value; omega)

theorem kernelCode_eq (T : String) (dagSize lightSize ETHASH_ACCESSES : Nat) :
    kernelCode T dagSize lightSize ETHASH_ACCESSES =
      some (definitionLine "MAX_OUTPUTS" 1
        ++ (definitionLine "ACCESSES" ETHASH_ACCESSES
        ++ (definitionLine "LIGHT_SIZE" (lightSize64 lightSize)
        ++ (definitionLine "DAG_SIZE" (dagSize128 dagSize)
        ++ (definitionLine "GROUP_SIZE" 64 ++ T))))) := by
  unfold kernelCode
  simp only [bind_pure]
  rw [addDefinition_short _ "GROUP_SIZE" _ (by decide)]
  simp only [Option.bind_eq_bind, Option.some_bind]
  rw [addDefinition_short _ "DAG_SIZE" _ (by decide)]
  simp only [Option.some_bind]
  rw [addDefinition_short _ "LIGHT_SIZE" _ (by decide)]
  simp only [Option.some_bind]
  rw [addDefinition_short _ "ACCESSES" _ (by decide)]
  simp only [Option.some_bind]
  rw [addDefinition_short _ "MAX_OUTPUTS" _ (by decide)]

theorem definitions_append (a b : List (String × Nat)) :
    definitions (a ++ b) = definitions a ++ definitions b := by
  induction a with
  | nil => simp [definitions]
  | cons kv a ih =>
    obtain ⟨k, v⟩ := kv
    rw [List.cons_append]
    simp only [definitions]
    rw [ih, String.append_assoc]

theorem addDefinitions_eq (T : String) (constants : List (String × Nat))
    (hfit : ∀ kv ∈ constants, (definitionLine kv.1 kv.2).length < 256) :
    addDefinitions T constants = some (definitions constants.reverse ++ T) := by
  induction constants generalizing T with
  | nil => simp [addDefinitions, definitions]
  | cons kv rest ih =>
    obtain ⟨k, v⟩ := kv
    have hk := hfit (k, v) (List.mem_cons_self _ _)
    have hrest : ∀ kv ∈ rest, (definitionLine kv.1 kv.2).length < 256 :=
      fun kv h => hfit kv (List.mem_cons_of_mem _ h)
    simp only [addDefinitions, addDefinition_of_fits T k v hk, ih _ hrest, List.reverse_cons,
      definitions_append, definitions, String.append_assoc, String.append_empty]

/-- C3 (as stated, refuted): injecting `A = 1` and then `B = 2` into the template `T`
does not give the two definition lines in the order supplied followed by `T`; the line
of `B`, supplied last, comes first. -/
theorem addDefinitions_not_in_supplied_order :
    addDefinitions "T" [("A", 1), ("B", 2)] ≠ some (definitions [("A", 1), ("B", 2)] ++ "T")
      ∧ addDefinitions "T" [("A", 1), ("B", 2)] = some "#define B 2u\n#define A 1u\nT"
      ∧ definitions [("A", 1), ("B", 2)] ++ "T" = "#define A 1u\n#define B 2u\nT" := by
  decide

/-- C3 (amended): constant injection is a pure prepend, each call placing its line in
front of everything injected before.  For every template `T` and every sequence of
constants whose lines fit the 256-byte buffer of `addDefinition`, the source after the
successive calls is `definitions ++ T`, where `definitions` is the concatenation of the
lines `#define <k> <v>u` in the REVERSE of the order supplied (last supplied first) and
`T` is the unchanged suffix.  The five calls of `main` are such a sequence for every
dataset size, cache size and access count. -/
theorem addDefinitions_prepends_reversed (T : String) (constants : List (String × Nat))
    (hfit : ∀ kv ∈ constants, (definitionLine kv.1 kv.2).length < 256) :
    addDefinitions T constants = some (definitions constants.reverse ++ T)
      ∧ ∀ dagSize lightSize ETHASH_ACCESSES : Nat,
          kernelCode T dagSize lightSize ETHASH_ACCESSES
            = addDefinitions T [("GROUP_SIZE", 64), ("DAG_SIZE", dagSize128 dagSize),
                ("LIGHT_SIZE", lightSize64 lightSize), ("ACCESSES", ETHASH_ACCESSES),
                ("MAX_OUTPUTS", 1)]
          ∧ kernelCode T dagSize lightSize ETHASH_ACCESSES
            = some (definitions [("MAX_OUTPUTS", 1), ("ACCESSES", ETHASH_ACCESSES),
                ("LIGHT_SIZE", lightSize64 lightSize), ("DAG_SIZE", dagSize128 dagSize),
                ("GROUP_SIZE", 64)] ++ T) := by
  refine ⟨addDefinitions_eq T constants hfit, fun dagSize lightSize ETHASH_ACCESSES => ?_⟩
  have hk := kernelCode_eq T dagSize lightSize ETHASH_ACCESSES
  have hmain : kernelCode T dagSize lightSize ETHASH_ACCESSES
      = some (definitions [("MAX_OUTPUTS", 1), ("ACCESSES", ETHASH_ACCESSES),
          ("LIGHT_SIZE", lightSize64 lightSize), ("DAG_SIZE", dagSize128 dagSize),
          ("GROUP_SIZE", 64)] ++ T) := by
    rw [hk]
    simp only [definitions, String.append_assoc, String.append_empty]
  refine ⟨?_, hmain⟩
  rw [hmain, addDefinitions_eq]
  · rfl
  · intro kv hkv
    have hlen := definitionLine_length kv.1 kv.2
    have : kv.1.length ≤ 234 := by
      simp only [List.mem_cons, List.mem_singleton, List.not_mem_nil, or_false] at hkv
      rcases hkv with h | h | h | h | h <;> subst h <;> simp only <;> decide
    omega

/-- Witness of C3 (amended): the constants of `main` at epoch 0 injected into a template. -/
theorem addDefinitions_prepends_reversed_witness :
    addDefinitions "kernel" [("GROUP_SIZE", 64), ("DAG_SIZE", 8388593),
        ("LIGHT_SIZE", 262139), ("ACCESSES", 64), ("MAX_OUTPUTS", 1)]
      = some (definitions [("MAX_OUTPUTS", 1), ("ACCESSES", 64), ("LIGHT_SIZE", 262139),
          ("DAG_SIZE", 8388593), ("GROUP_SIZE", 64)] ++ "kernel") :=
  (addDefinitions_prepends_reversed "kernel" [("GROUP_SIZE", 64), ("DAG_SIZE", 8388593),
    ("LIGHT_SIZE", 262139), ("ACCESSES", 64), ("MAX_OUTPUTS", 1)] (by decide)).1

/-- C9 (as stated, refuted): for the epoch-0 dataset of 1073739904 bytes (a multiple of
128) the injected `DAG_SIZE` is 8388593, while `dagSize / 64`, the workload total of the
Batch Dispatcher, is 16777186. -/
theorem dag_size_constant_not_node_units :
    1073739904 % 128 = 0
      ∧ kernelCode "" 1073739904 16776896 64
          = some "#define MAX_OUTPUTS 1u\n#define ACCESSES 64u\n#define LIGHT_SIZE 262139u\n#define DAG_SIZE 8388593u\n#define GROUP_SIZE 64u\n"
      ∧ dagSize128 1073739904 = 8388593
      ∧ 1073739904 / sizeofNode = 16777186
      ∧ work 1073739904 = 16777186
      ∧ dagSize128 1073739904 ≠ 1073739904 / sizeofNode := by
  decide

/-- C9 (amended): the `DAG_SIZE` constant `main` injects is the dataset size in 128-byte
units (`ETHASH_MIX_BYTES`), not in 64-byte nodes: for every dataset byte size that is a
multiple of 128 and whose node count fits 32 bits, the injected line is
`#define DAG_SIZE <dagSize / 128>u`, and the workload total `W = dagSize / 64` of the
Batch Dispatcher is twice the injected value. -/
theorem dag_size_constant_mix_units (T : String) (dagSize lightSize ETHASH_ACCESSES : Nat)
    (h128 : dagSize % 128 = 0) (hfit : dagSize / 64 < UINT32) :
    kernelCode T dagSize lightSize ETHASH_ACCESSES =
        some (definitionLine "MAX_OUTPUTS" 1
          ++ (definitionLine "ACCESSES" ETHASH_ACCESSES
          ++ (definitionLine "LIGHT_SIZE" (lightSize64 lightSize)
          ++ (definitionLine "DAG_SIZE" (dagSize / 128)
          ++ (definitionLine "GROUP_SIZE" 64 ++ T)))))
      ∧ dagSize128 dagSize = dagSize / 128
      ∧ work dagSize = dagSize / 64
      ∧ work dagSize = 2 * dagSize128 dagSize := by
  have h32 : UINT32 = 4294967296 := rfl
  rw [h32] at hfit
  have hd : dagSize128 dagSize = dagSize / 128 := by
    unfold dagSize128 ETHASH_MIX_BYTES
    rw [h32]; omega
  have hw : work dagSize = dagSize / 64 := by
    unfold work sizeofNode
    rw [h32]; omega
  refine ⟨?_, hd, hw, ?_⟩
  · rw [kernelCode_eq, hd]
  · rw [hw, hd]; omega

/-- Witness of C9 (amended): the epoch-0 dataset size. -/
theorem dag_size_constant_mix_units_witness :
    dagSize128 1073739904 = 1073739904 / 128
      ∧ work 1073739904 = 2 * dagSize128 1073739904 :=
  ⟨(dag_size_constant_mix_units "" 1073739904 16776896 64 (by decide) (by decide)).2.1,
   (dag_size_constant_mix_units "" 1073739904 16776896 64 (by decide) (by decide)).2.2.2⟩

/-! ## Device selection -/

theorem deviceIndex_eq (k n : Nat) (hk : k < UINT32) (hn : 0 < n) (hn32 : n < UINT32) :
    deviceIndex k n = min k (n - 1) := by
  have h32 : UINT32 = 4294967296 := rfl
  have h64 : UINT64 = 18446744073709551616 := rfl
  unfold deviceIndex
  rw [h32] at hk hn32 ⊢
  rw [h64]
  omega

/-- C4: device index selection is safe and idempotent.  For every requested index `k`
(a 32-bit `unsigned`) and every non-empty device list (its length, a `cl_uint` count,
below `2^32`), the index of line 134 is `min(k, n - 1)`, it is a valid index, the device
at that position is the one selected, and selecting again with the selected index gives
the same index. -/
theorem deviceIndex_clamped_idempotent (devices : List Device) (k : Nat)
    (hk : k < UINT32) (hne : devices ≠ []) (hlen : devices.length < UINT32) :
    deviceIndex k devices.length = min k (devices.length - 1)
      ∧ deviceIndex k devices.length < devices.length
      ∧ selectDevice devices k = devices[min k (devices.length - 1)]?
      ∧ (selectDevice devices k).isSome = true
      ∧ deviceIndex (deviceIndex k devices.length) devices.length
          = deviceIndex k devices.length
      ∧ selectDevice devices (deviceIndex k devices.length) = selectDevice devices k := by
  have hpos : 0 < devices.length := List.length_pos.mpr hne
  have h1 := deviceIndex_eq k devices.length hk hpos hlen
  have h2 : deviceIndex k devices.length < devices.length := by rw [h1]; omega
  have h3 : deviceIndex (deviceIndex k devices.length) devices.length
      = deviceIndex k devices.length := by
    rw [deviceIndex_eq _ _ (lt_trans h2 hlen) hpos hlen, h1]; omega
  refine ⟨h1, h2, ?_, ?_, h3, ?_⟩
  · unfold selectDevice; rw [h1]
  · unfold selectDevice
    rw [List.getElem?_eq_getElem h2]; rfl
  · unfold selectDevice; rw [h3]

/-- Witness of C4: devices `[D0, D1]` with requested index 5 select `D1`. -/
theorem deviceIndex_clamped_idempotent_witness :
    deviceIndex 5 2 = 1 ∧ selectDevice [⟨"D0"⟩, ⟨"D1"⟩] 5 = some ⟨"D1"⟩ :=
  have h := deviceIndex_clamped_idempotent [⟨"D0"⟩, ⟨"D1"⟩] 5 (by decide) (by decide)
    (by decide)
  ⟨h.1, h.2.2.1⟩

/-! ## The test loop: load failure -/

theorem report_no_device_work : ∀ op ∈ report, op.isDeviceWork = false := by
  intro op h
  unfold report at h
  rw [List.mem_flatMap] at h
  obtain ⟨_, _, h⟩ := h
  simp only [List.mem_append, List.mem_replicate, List.mem_singleton] at h
  rcases h with ⟨_, rfl⟩ | rfl <;> rfl

theorem testCycle_load_failure (d : Nat) (c : Cycle)
    (h : c.fopen = false ∨ c.fread ≠ c.ftell) :
    (testCycle d c).2 = .awaitContinue
      ∧ (∀ op ∈ (testCycle d c).1, op.isDeviceWork = false) := by
  rcases Bool.eq_false_or_eq_true c.fopen with ho | ho
  · rcases h with h | h
    · rw [h] at ho; cases ho
    · simp [testCycle, ho, h, Op.isDeviceWork]
  · simp [testCycle, ho, Op.isDeviceWork]

theorem testLoop_cons_await (d : Nat) (c : Cycle) (cs : List Cycle)
    (h : (testCycle d c).2 = .awaitContinue) :
    testLoop d (c :: cs) =
      if c.getchar ≠ QUIT then
        ⟨(testCycle d c).1 ++ [.getchar] ++ (testLoop d cs).trace, (testLoop d cs).exit⟩
      else ⟨(testCycle d c).1 ++ [.getchar, .free], some (.returned 0)⟩ := by
  cases hcyc : testCycle d c with
  | mk t e =>
    rw [hcyc] at h
    simp only at h
    subst h
    simp only [testLoop, hcyc]

theorem testCycle_loads (d : Nat) (c : Cycle) (ho : c.fopen = true) (hr : c.fread = c.ftell) :
    Op.createProgramBinary c.ftell ∈ (testCycle d c).1 := by
  unfold testCycle
  simp only [ho, hr]
  cases c.programCtor with
  | some err => simp
  | none =>
    cases c.buildThrows with
    | true => simp
    | false =>
      cases hb : bind d c with
      | mk b e => cases e <;> simp

/-- C5: when the LOAD step of an iteration fails, because `test.bin` cannot be opened or
because `fread` returns a byte count different from the length `ftell` reported, the
iteration issues no device work at all (no program creation or build, no kernel
extraction, no argument binding, no dispatch, no readback, no buffer creation or
write) and control reaches the loop condition `getchar() != 'q'`.  From there the loop
either ends with exit code 0 (on `q`) or runs the next iteration exactly as a fresh
one, and a next iteration whose load succeeds does hand its bytes to the program
builder. -/
theorem load_failure_skips_cycle (d : Nat) (c : Cycle)
    (h : c.fopen = false ∨ c.fread ≠ c.ftell) :
    (testCycle d c).2 = .awaitContinue
      ∧ (∀ op ∈ (testCycle d c).1, op.isDeviceWork = false)
      ∧ (∀ cs, c.getchar ≠ QUIT →
          testLoop d (c :: cs) =
            ⟨(testCycle d c).1 ++ [.getchar] ++ (testLoop d cs).trace, (testLoop d cs).exit⟩)
      ∧ (∀ cs, c.getchar = QUIT → (testLoop d (c :: cs)).exit = some (.returned 0))
      ∧ (∀ next cs, c.getchar ≠ QUIT → next.fopen = true → next.fread = next.ftell →
          Op.createProgramBinary next.ftell ∈ (testLoop d (c :: next :: cs)).trace) := by
  have hc := testCycle_load_failure d c h
  refine ⟨hc.1, hc.2, ?_, ?_, ?_⟩
  · intro cs hq
    rw [testLoop_cons_await d c cs hc.1, if_pos hq]
  · intro cs hq
    rw [testLoop_cons_await d c cs hc.1]
    simp [hq]
  · intro next cs hq ho hr
    rw [testLoop_cons_await d c _ hc.1, if_pos hq]
    have hmem := testCycle_loads d next ho hr
    have hnext : Op.createProgramBinary next.ftell ∈ (testLoop d (next :: cs)).trace := by
      cases hcyc : testCycle d next with
      | mk t e =>
        rw [hcyc] at hmem
        cases e with
        | stop e => simp only [testLoop, hcyc]; exact hmem
        | awaitContinue =>
          simp only [testLoop, hcyc]
          split <;> simp [hmem]
    simp [hnext]

/-- Witness of C5: a truncated read (1000 of 4096 bytes) followed by a good cycle. -/
theorem load_failure_skips_cycle_witness :
    (testCycle 8388593 truncatedCycle).2 = .awaitContinue
      ∧ (testCycle 8388593 truncatedCycle).1 =
          [.print "Testing n\x27 testing kernel...", .fopen "test.bin", .calloc 4096,
           .fread 4096, .fclose, .print "Couldn\x27t read entire file (%zu, %zu)\n", .free]
      ∧ Op.createProgramBinary 4096
          ∈ (testLoop 8388593 [truncatedCycle, goodCycle]).trace :=
  have h := load_failure_skips_cycle 8388593 truncatedCycle (Or.inr (by decide))
  ⟨h.1, by decide, h.2.2.2.2 goodCycle [] (by decide) rfl rfl⟩

/-! ## Startup: empty enumerations -/

/-- C6: whenever platform enumeration returns an empty list, or device enumeration on
the chosen platform (index 0) returns an empty list, `main` terminates with exit code
-1, and up to that point it has issued no device work: no buffer creation, no buffer
write, no program creation or build, no kernel extraction, no argument binding, no
dispatch and no readback. -/
theorem empty_enumeration_is_fatal (env : Env) (platforms : List Platform)
    (hp : (getPlatforms env.platformGet).2 = .ok platforms)
    (h : platforms = [] ∨ getDevices platforms 0 = .ok []) :
    (main env).exit = some (.returned (-1))
      ∧ (∀ op ∈ (main env).trace, op.isDeviceWork = false) := by
  cases hg : getPlatforms env.platformGet with
  | mk w r =>
    rw [hg] at hp
    simp only at hp
    subst hp
    have hw : ∀ op ∈ w, op.isDeviceWork = false := by
      intro op hop
      unfold getPlatforms at hg
      split at hg
      · cases hg; cases hop
      · split at hg
        · cases hg
          rw [List.mem_singleton] at hop
          subst hop; rfl
        · cases hg
    by_cases hnil : platforms = []
    · subst hnil
      unfold main
      rw [hg]
      simp only [List.isEmpty_nil, if_true]
      refine ⟨trivial, ?_⟩
      intro op hop
      rw [List.mem_append] at hop
      rcases hop with hop | hop
      · revert op; decide
      · exact hw op hop
    · have hd : getDevices platforms 0 = .ok [] := h.resolve_left hnil
      have hE : platforms.isEmpty = false := by
        cases hpl : platforms with
        | nil => exact absurd hpl hnil
        | cons p ps => rfl
      unfold main
      rw [hg]
      simp only [hE, hd, Bool.false_eq_true, if_false, List.isEmpty_nil, if_true]
      refine ⟨trivial, ?_⟩
      intro op hop
      simp only [List.mem_append] at hop
      rcases hop with ((hop | hop) | hop) | hop
      · revert op; decide
      · exact hw op hop
      · rw [List.mem_singleton] at hop; subst hop; rfl
      · rw [List.mem_singleton] at hop; subst hop; rfl

/-- Witness of C6: one platform whose device query reports `CL_DEVICE_NOT_FOUND`. -/
theorem empty_enumeration_is_fatal_witness :
    (main { platformGet := .ok [⟨.error CL_DEVICE_NOT_FOUND⟩], CLMiner_kernel := "kernel",
            ETHASH_ACCESSES := 64, dagSize := 1073739904, lightSize := 16776896,
            lightAllocThrows := false, dagAllocThrows := false, buildThrows := false,
            cycles := [goodCycle] }).exit = some (.returned (-1)) :=
  (empty_enumeration_is_fatal
    { platformGet := .ok [⟨.error CL_DEVICE_NOT_FOUND⟩], CLMiner_kernel := "kernel",
      ETHASH_ACCESSES := 64, dagSize := 1073739904, lightSize := 16776896,
      lightAllocThrows := false, dagAllocThrows := false, buildThrows := false,
      cycles := [goodCycle] }
    [⟨.error CL_DEVICE_NOT_FOUND⟩] rfl (Or.inr rfl)).1

/-! ## The test loop: binding -/

/-- C7 (code at the failing input): in a cycle whose LOAD and BUILD succeed and whose
BIND block throws, at its first call (`keccak_search` is missing) or at its last call
(`setArg(7, factor)`), the failure message is printed and the same iteration still
issues the dispatch `enqueueNDRangeKernel(m_asmKernel, NullRange, 128, 64)` and the
readback of the output buffer: the `catch` block of BIND has no `continue`. -/
theorem bind_failure_still_dispatches :
    (issue bindFailCycle.bindThrows 0 bindBuffers).2 = true
      ∧ Op.print "Failed to load and set args for kernel...\n"
          ∈ (testCycle 8388593 bindFailCycle).1
      ∧ Op.enqueueNDRangeKernel .m_asmKernel 128 64 ∈ (testCycle 8388593 bindFailCycle).1
      ∧ Op.enqueueReadBuffer .m_outputBuffer 512 ∈ (testCycle 8388593 bindFailCycle).1
      ∧ (testCycle 8388593 bindFailCycle).1.take 18 =
          [.print "Testing n\x27 testing kernel...", .fopen "test.bin", .calloc 4096,
           .fread 4096, .fclose, .print "Kernel size: %zu\n",
           .print "Loading binary kernel test.bin\n", .createProgramBinary 4096, .build,
           .print "Build info:", .free, .print "Setting up params for run...\n",
           .createKernel .m_asmKernel "keccak_search",
           .print "Failed to load and set args for kernel...\n",
           .print "Successful load, running...\n",
           .enqueueNDRangeKernel .m_asmKernel 128 64, .finish,
           .print "Successful run, reading...\n"]
      ∧ Op.print "Failed to load and set args for kernel...\n"
          ∈ (testCycle 8388593 lastArgFailCycle).1
      ∧ Op.enqueueNDRangeKernel .m_asmKernel 128 64
          ∈ (testCycle 8388593 lastArgFailCycle).1 := by
  decide

theorem factor_eq (d : Nat) (h1 : 1 < d) : factor d = some (4294967296 / d) := by
  have hs : (1 <<< 32 : Nat) = 4294967296 := by decide
  have h64 : UINT64 = 18446744073709551616 := rfl
  have h32 : UINT32 = 4294967296 := rfl
  have hlt : 4294967296 / d < 4294967296 := Nat.div_lt_self (by decide) h1
  have hm : 4294967296 % 18446744073709551616 = 4294967296 := by decide
  unfold factor
  rw [if_neg (by omega), hs, h64, h32, hm, Nat.mod_eq_of_lt hlt]

theorem issue_none (throws : Nat → Bool) (h : ∀ k, throws k = false) (k : Nat)
    (ops : List Op) : issue throws k ops = (ops, false) := by
  induction ops generalizing k with
  | nil => rfl
  | cons op rest ih => simp [issue, h k, ih]

/-- C8 (as stated, refuted): for `dagSize128 = 1`, which satisfies
`0 < dagSize128 < 2^32`, the quotient `2^32 / 1 = 2^32` does not fit 32 bits; the value
bound at slot 7 is 0. -/
theorem factor_truncated_at_one :
    0 < 1 ∧ 1 < UINT32
      ∧ factor 1 = some 0
      ∧ factor 1 ≠ some (2 ^ 32 / 1)
      ∧ Op.setArg .m_asmKernel 7 (.uint 0) ∈ (testCycle 1 goodCycle).1
      ∧ dagSize128 128 = 1 := by
  decide

/-- C8 (amended): for every dataset size with `1 < dagSize128` (a 32-bit value, though
the bound `dagSize128 < 2^32` is not needed), the 32-bit normalization factor is
`floor(2^32 / dagSize128)` with no loss, and a cycle whose LOAD, BUILD and BIND succeed
binds exactly that value, and no other, at argument slot 7 of the search kernel. -/
theorem factor_exact_above_one (d : Nat) (c : Cycle) (h1 : 1 < d)
    (hopen : c.fopen = true) (hread : c.fread = c.ftell) (hctor : c.programCtor = none)
    (hbuild : c.buildThrows = false) (hbind : ∀ k, c.bindThrows k = false) :
    factor d = some (2 ^ 32 / d)
      ∧ 2 ^ 32 / d < UINT32
      ∧ Op.setArg .m_asmKernel 7 (.uint (2 ^ 32 / d)) ∈ (testCycle d c).1
      ∧ (∀ a, Op.setArg .m_asmKernel 7 a ∈ (testCycle d c).1 → a = .uint (2 ^ 32 / d)) := by
  have hp : (2 : Nat) ^ 32 = 4294967296 := by norm_num
  have hf := factor_eq d h1
  have hb : bind d c =
      ([Op.print "Setting up params for run...\n"] ++ bindBuffers
        ++ bindScalars d (4294967296 / d), none) := by
    unfold bind
    simp only [issue_none c.bindThrows hbind, hf, Bool.false_eq_true, if_false]
  have ht : (testCycle d c).1 =
      [Op.print "Testing n\x27 testing kernel...", Op.fopen "test.bin", Op.calloc c.ftell,
        Op.fread c.ftell, Op.fclose, Op.print "Kernel size: %zu\n",
        Op.print "Loading binary kernel test.bin\n", Op.createProgramBinary c.ftell,
        Op.build, Op.print "Build info:", Op.free,
        Op.print "Setting up params for run...\n"] ++ bindBuffers
        ++ bindScalars d (4294967296 / d) ++ (dispatchAndRead c).1 := by
    unfold testCycle
    simp [hopen, hread, hctor, hbuild, hb]
  have hdisp : ∀ a, Op.setArg .m_asmKernel 7 a ∉ (dispatchAndRead c).1 := by
    intro a hmem
    have hrep : Op.setArg .m_asmKernel 7 a ∉ report := fun hm => by
      have := report_no_device_work _ hm
      cases this
    unfold dispatchAndRead at hmem
    simp only at hmem
    split at hmem
    · simp at hmem
    · split at hmem
      · simp at hmem
      · split at hmem
        · simp at hmem
        · simp [hrep] at hmem
  rw [hp]
  refine ⟨hf, ?_, ?_, ?_⟩
  · exact Nat.div_lt_self (by decide) h1
  · rw [ht]
    simp [bindScalars]
  · intro a hmem
    rw [ht] at hmem
    simp only [List.mem_append] at hmem
    rcases hmem with (hmem | hmem) | hmem
    · simp [bindBuffers] at hmem
    · simp [bindScalars] at hmem
      exact hmem
    · exact absurd hmem (hdisp a)

/-- Witness of C8 (amended): the epoch-0 dataset, `dagSize128 = 8388593`, factor 512. -/
theorem factor_exact_above_one_witness :
    factor 8388593 = some 512
      ∧ Op.setArg .m_asmKernel 7 (.uint 512) ∈ (testCycle 8388593 goodCycle).1 :=
  have h := factor_exact_above_one 8388593 goodCycle (by decide) rfl rfl rfl rfl
    (fun _ => rfl)
  ⟨h.1, h.2.2.1⟩

end Ethtester
